import Mathlib

/-!
Shallow embedding of two vendored Node.js internal modules:
* `internal/crypto/keys.js` (KeyObject / CryptoKey family, key-encoding
  negotiation, key-material preparation), and
* the AbortController / AbortSignal module.

JavaScript dynamic values are modelled by the inductive `Node.JSVal`;
thrown errors are modelled by `Except` with an explicit error type.
Native-binding collaborators (`KeyObjectHandle`, `getArrayBufferOrView`)
are not part of the repository source and are modelled from the spec where
noted.
-/

namespace Node

/-- The native key-category constants `kKeyTypeSecret`, `kKeyTypePublic`,
`kKeyTypePrivate` from `internalBinding('crypto')`. -/
inductive NativeKeyType where
  | secret
  | publicKey
  | privateKey
deriving DecidableEq, Repr

/-- String name of a native key category (used to state category/handle
mismatches). -/
def NativeKeyType.name : NativeKeyType → String
  | .secret => "secret"
  | .publicKey => "public"
  | .privateKey => "private"

/-- Modelled from the spec: the Opaque Key Handle collaborator
(`KeyObjectHandle` from `internalBinding('crypto')`, not in the repository
source). Per §6 it holds raw key bytes plus the category it was initialized
with; `init` loads key material and `export` (for secret keys) returns the
raw bytes. -/
structure KeyObjectHandle where
  keyType : NativeKeyType
  data : List Nat
deriving DecidableEq, Repr

/-- Modelled from the spec: `new KeyObjectHandle(); handle.init(type, data)`
for the secret-key path stores the category and the raw bytes. -/
def KeyObjectHandle.init (keyType : NativeKeyType) (data : List Nat) :
    KeyObjectHandle :=
  { keyType := keyType, data := data }

/-- Modelled from the spec: for secret keys, `handle.export()` takes no
arguments and returns the raw key bytes (§6). -/
def KeyObjectHandle.exportSecret (h : KeyObjectHandle) : List Nat :=
  h.data

/-- The JS `KeyObject` class state: the `kKeyType` slot (a category string)
and the frozen `kHandle` slot.  Both are set once by the constructor and
have no setters, so the structure is immutable, like the source object. -/
structure KeyObject where
  type : String
  handle : KeyObjectHandle
deriving DecidableEq, Repr

/-- The JS `CryptoKey` state: the four symbol slots `kKeyObject`,
`kAlgorithm`, `kKeyUsages`, `kExtractable`.  The algorithm descriptor is
opaque metadata and is modelled as a string.  Values of this type are
exactly the instances produced by the internal `InternalCryptoKey`
construction path. -/
structure CryptoKey where
  keyObject : KeyObject
  algorithm : String
  keyUsages : List String
  extractable : Bool
deriving DecidableEq, Repr

/-- JavaScript values, restricted to the shapes the keys module inspects.
An object literal is modelled by its six properties the module ever reads
(`format`, `type`, `cipher`, `passphrase`, `encoding`, `key`; a missing
property is `undef`) plus its `kKeyObject` symbol slot (`undef` when the
property is not defined). -/
inductive JSVal where
  | undef
  | nullv
  | str (s : String)
  | num (n : Int)
  | boolv (b : Bool)
  | buf (b : List Nat)
  | keyObject (k : KeyObject)
  | cryptoKey (k : CryptoKey)
  | handleV (h : KeyObjectHandle)
  | obj (format type cipher passphrase encoding key kKeyObjectProp : JSVal)
deriving DecidableEq, Repr

/-- JS `typeof`. -/
def typeOf : JSVal → String
  | JSVal.undef => "undefined"
  | .nullv => "object"
  | .str _ => "string"
  | .num _ => "number"
  | .boolv _ => "boolean"
  | .buf _ => "object"
  | .keyObject _ => "object"
  | .cryptoKey _ => "object"
  | .handleV _ => "object"
  | .obj _ _ _ _ _ _ _ => "object"

/-- JS loose `v != null` (excludes exactly `null` and `undefined`). -/
def jsNotNull (v : JSVal) : Bool :=
  match v with
  | JSVal.undef => false
  | .nullv => false
  | _ => true

/-- Property read `v.name` for the named (string-keyed) properties the
module uses.  `KeyObject.prototype.type` and `CryptoKey.prototype.type`
are getters; reading any named property off other values yields
`undefined`. -/
def jsGet (v : JSVal) (name : String) : JSVal :=
  match v with
  | .obj f t c p e k _ =>
    if name = "format" then f
    else if name = "type" then t
    else if name = "cipher" then c
    else if name = "passphrase" then p
    else if name = "encoding" then e
    else if name = "key" then k
    else JSVal.undef
  | .keyObject ko => if name = "type" then .str ko.type else JSVal.undef
  | .cryptoKey ck => if name = "type" then .str ck.keyObject.type else JSVal.undef
  | _ => JSVal.undef

/-- The symbol-keyed read `v[kKeyObject]`.  A genuine `CryptoKey` holds its
wrapped `KeyObject` there; a plain object may carry an arbitrary value in
that slot; every other value yields `undefined`. -/
def jsGetKKeyObject (v : JSVal) : JSVal :=
  match v with
  | .cryptoKey ck => .keyObject ck.keyObject
  | .obj _ _ _ _ _ _ kko => kko
  | _ => JSVal.undef

/-- Errors thrown by the module (`internal/errors` codes), plus
`nativeTypeError` for a raw engine `TypeError` (destructuring `null`). -/
inductive CryptoErr where
  | incompatibleKeyOptions (type msg : String)
  | invalidKeyObjectType (received expected : String)
  | invalidArgType (name : String) (expected : List String)
  | invalidArgValue (name : String) (value : JSVal)
  | outOfRange (name range : String)
  | operationFailed (msg : String)
  | nativeTypeError (msg : String)
deriving DecidableEq, Repr

/-- `kKeyFormatPEM` / `kKeyFormatDER`. -/
inductive KeyFormat where
  | pem
  | der
deriving DecidableEq, Repr

/-- `kKeyEncodingPKCS1` / `kKeyEncodingPKCS8` / `kKeyEncodingSPKI` /
`kKeyEncodingSEC1`. -/
inductive KeyEncoding where
  | pkcs1
  | pkcs8
  | spki
  | sec1
deriving DecidableEq, Repr

/-- The `encodingNames` lookup table. -/
def encodingNames : KeyEncoding → String
  | .pkcs1 => "pkcs1"
  | .pkcs8 => "pkcs8"
  | .spki => "spki"
  | .sec1 => "sec1"

/-- `encodingNames[type]` where `type` may be `undefined` (JS indexing with
`undefined` yields `undefined`; only reachable with a resolved type in the
source). -/
def encodingNamesOpt : Option KeyEncoding → String
  | some e => encodingNames e
  | none => "undefined"

/-- `isStringOrBuffer`: a string, an `ArrayBufferView`, or any
`ArrayBuffer` (both buffer kinds are modelled by `JSVal.buf`). -/
def isStringOrBuffer (val : JSVal) : Bool :=
  match val with
  | .str _ => true
  | .buf _ => true
  | _ => false

/-- Modelled from the spec: `getArrayBufferOrView` from
`internal/crypto/util` (not in the repository source).  It passes byte
buffers through unchanged, decodes a string to its bytes honoring the
caller's text encoding, and rejects other shapes with an
invalid-argument-type error. -/
def getArrayBufferOrView (v : JSVal) (name : String) (_encoding : JSVal) :
    Except CryptoErr (List Nat) :=
  match v with
  | .buf b => .ok b
  | .str s => .ok (s.toUTF8.toList.map (fun b => b.toNat))
  | _ => .error (.invalidArgType name
      ["string", "ArrayBuffer", "Buffer", "TypedArray", "DataView"])

/-- `isKeyObject(key)`: the nominal `key instanceof KeyObject` check. -/
def isKeyObject (key : JSVal) : Bool :=
  match key with
  | .keyObject _ => true
  | _ => false

/-- `isCryptoKey(obj)`: `obj != null && obj[kKeyObject] !== undefined` — a
structural presence check of the `kKeyObject` slot. -/
def isCryptoKey (obj : JSVal) : Bool :=
  jsNotNull obj && jsGetKKeyObject obj != JSVal.undef

/-- Holds exactly for values produced by the internal
`InternalCryptoKey` construction path (the only code that populates the
`CryptoKey` state in this embedding). -/
def isInternalCryptoKey (v : JSVal) : Bool :=
  match v with
  | .cryptoKey _ => true
  | _ => false

/-- The `KeyObject` constructor (`constructor(type, handle)`): validates
that `type` is one of the three category strings, that `handle` is a
`KeyObjectHandle` instance, then stores both.  (No comparison of `type`
against the handle's own category is performed.) -/
def KeyObject.construct (type : String) (handle : JSVal) :
    Except CryptoErr KeyObject :=
  if type ≠ "secret" ∧ type ≠ "public" ∧ type ≠ "private" then
    .error (.invalidArgValue "type" (.str type))
  else
    match handle with
    | .handleV h => .ok { type := type, handle := h }
    | _ => .error (.invalidArgType "handle" ["object"])

/-- `new SecretKeyObject(handle)` = `super('secret', handle)`; the base
constructor's checks pass (`'secret'` is a valid category string and the
argument is a `KeyObjectHandle`). -/
def SecretKeyObject.mk (handle : KeyObjectHandle) : KeyObject :=
  { type := "secret", handle := handle }

/-- `SecretKeyObject.prototype.export()`: delegates to the handle's
zero-argument export. -/
def SecretKeyObject.exportKey (k : KeyObject) : List Nat :=
  k.handle.exportSecret

/-- `parseKeyFormat(formatStr, defaultFormat, optionName)`. -/
def parseKeyFormat (formatStr : JSVal) (defaultFormat : Option KeyFormat)
    (optionName : String) : Except CryptoErr KeyFormat :=
  match formatStr, defaultFormat with
  | JSVal.undef, some f => .ok f
  | .str "pem", _ => .ok .pem
  | .str "der", _ => .ok .der
  | _, _ => .error (.invalidArgValue optionName formatStr)

/-- `parseKeyType(typeStr, required, keyType, isPublic, optionName)`.
`keyType` is `undefined` (`none`) when parsing an input encoding, or the
asymmetric key family tag (`'rsa'`, `'ec'`, ...) for an output encoding;
`isPublic` is the tri-state publicness constraint. -/
def parseKeyType (typeStr : JSVal) (required : Bool)
    (keyType : Option String) (isPublic : Option Bool)
    (optionName : String) : Except CryptoErr (Option KeyEncoding) :=
  if typeStr = JSVal.undef ∧ ¬required then
    .ok none
  else if typeStr = .str "pkcs1" then
    if keyType ≠ none ∧ keyType ≠ some "rsa" then
      .error (.incompatibleKeyOptions "pkcs1" "can only be used for RSA keys")
    else
      .ok (some .pkcs1)
  else if typeStr = .str "spki" ∧ isPublic ≠ some false then
    .ok (some .spki)
  else if typeStr = .str "pkcs8" ∧ isPublic ≠ some true then
    .ok (some .pkcs8)
  else if typeStr = .str "sec1" ∧ isPublic ≠ some true then
    if keyType ≠ none ∧ keyType ≠ some "ec" then
      .error (.incompatibleKeyOptions "sec1" "can only be used for EC keys")
    else
      .ok (some .sec1)
  else
    .error (.invalidArgValue optionName typeStr)

/-- `option(name, objName)`: the diagnostic option path. -/
def option (name : String) (objName : Option String) : String :=
  match objName with
  | none => "options." ++ name
  | some o => "options." ++ o ++ "." ++ name

/-- `parseKeyFormatAndType(enc, keyType, isPublic, objName)`; a thrown
error propagates. -/
def parseKeyFormatAndType (enc : JSVal) (keyType : Option String)
    (isPublic : Option Bool) (objName : Option String) :
    Except CryptoErr (KeyFormat × Option KeyEncoding) :=
  let formatStr := jsGet enc "format"
  let typeStr := jsGet enc "type"
  let isInput := keyType.isNone
  match parseKeyFormat formatStr
      (if isInput then some .pem else none) (option "format" objName) with
  | .error e => .error e
  | .ok format =>
    match parseKeyType typeStr
        (!isInput || decide (format = KeyFormat.der)) keyType isPublic
        (option "type" objName) with
    | .error e => .error e
    | .ok type => .ok (format, type)

/-- The `{format, type, cipher, passphrase}` record returned by
`parseKeyEncoding`.  `cipher` is returned as the raw supplied value
(`undefined` when absent or in a public context); a present passphrase is
coerced to bytes. -/
structure ParsedEncoding where
  format : KeyFormat
  type : Option KeyEncoding
  cipher : JSVal
  passphrase : Option (List Nat)
deriving DecidableEq, Repr

/-- `parseKeyEncoding(enc, keyType, isPublic, objName)`.  When
`isPublic = some true` the cipher/passphrase block is skipped entirely
(they remain `undefined`, so the final passphrase coercion is also
skipped), which the early return in that branch reproduces. -/
def parseKeyEncoding (enc : JSVal) (keyType : Option String)
    (isPublic : Option Bool) (objName : Option String) :
    Except CryptoErr ParsedEncoding :=
  if enc = .nullv ∨ typeOf enc ≠ "object" then
    .error (.invalidArgType "options" ["object"])
  else
    let isInput := keyType.isNone
    match parseKeyFormatAndType enc keyType isPublic objName with
    | .error e => .error e
    | .ok (format, type) =>
      if isPublic = some true then
        .ok { format := format, type := type, cipher := JSVal.undef,
              passphrase := none }
      else
        let cipher := jsGet enc "cipher"
        let passphrase := jsGet enc "passphrase"
        let encoding := jsGet enc "encoding"
        let cipherCheck : Except CryptoErr Unit :=
          if !isInput then
            if jsNotNull cipher then
              if typeOf cipher ≠ "string" then
                .error (.invalidArgValue (option "cipher" objName) cipher)
              else if format = KeyFormat.der ∧
                  (type = some KeyEncoding.pkcs1 ∨
                   type = some KeyEncoding.sec1) then
                .error (.incompatibleKeyOptions (encodingNamesOpt type)
                  "does not support encryption")
              else .ok ()
            else if passphrase ≠ JSVal.undef then
              .error (.invalidArgValue (option "cipher" objName) cipher)
            else .ok ()
          else .ok ()
        match cipherCheck with
        | .error e => .error e
        | .ok () =>
          if (isInput ∧ passphrase ≠ JSVal.undef ∧
              ¬isStringOrBuffer passphrase) ∨
             (¬isInput ∧ jsNotNull cipher ∧
              ¬isStringOrBuffer passphrase) then
            .error (.invalidArgValue (option "passphrase" objName)
              passphrase)
          else if passphrase ≠ JSVal.undef then
            match getArrayBufferOrView passphrase "key.passphrase"
                encoding with
            | .error e => .error e
            | .ok p =>
              .ok { format := format, type := type, cipher := cipher,
                    passphrase := some p }
          else
            .ok { format := format, type := type, cipher := cipher,
                  passphrase := none }

/-- `parsePublicKeyEncoding(enc, keyType, objName)`; `keyType ? true :
undefined` uses JS truthiness, under which the empty string is falsy. -/
def parsePublicKeyEncoding (enc : JSVal) (keyType : Option String)
    (objName : Option String) : Except CryptoErr ParsedEncoding :=
  parseKeyEncoding enc keyType
    (match keyType with
     | some s => if s = "" then none else some true
     | none => none)
    objName

/-- `parsePrivateKeyEncoding(enc, keyType, objName)`. -/
def parsePrivateKeyEncoding (enc : JSVal) (keyType : Option String)
    (objName : Option String) : Except CryptoErr ParsedEncoding :=
  parseKeyEncoding enc keyType (some false) objName

/-- Key input contexts. -/
def kConsumePublic : Nat := 0

def kConsumePrivate : Nat := 1

def kCreatePublic : Nat := 2

def kCreatePrivate : Nat := 3

/-- `getKeyObjectHandle(key, ctx)`. -/
def getKeyObjectHandle (key : KeyObject) (ctx : Nat) :
    Except CryptoErr KeyObjectHandle :=
  if ctx = kCreatePrivate then
    .error (.invalidArgType "key"
      ["string", "ArrayBuffer", "Buffer", "TypedArray", "DataView"])
  else if key.type ≠ "private" then
    if ctx = kConsumePrivate ∨ ctx = kCreatePublic then
      .error (.invalidKeyObjectType key.type "private")
    else if key.type ≠ "public" then
      .error (.invalidKeyObjectType key.type "private or public")
    else
      .ok key.handle
  else
    .ok key.handle

/-- `getKeyTypes(allowKeyObject, bufferOnly)`. -/
def getKeyTypes (allowKeyObject : Bool) (bufferOnly : Bool) : List String :=
  ["ArrayBuffer", "Buffer", "TypedArray", "DataView"]
    ++ (if !bufferOnly then ["string"] else [])
    ++ (if !bufferOnly && allowKeyObject then ["KeyObject", "CryptoKey"]
        else [])

/-- The `data` component of a prepared key: either an extracting bypass
(the existing handle) or coerced raw bytes. -/
inductive KeyData where
  | handle (h : KeyObjectHandle)
  | bytes (b : List Nat)
deriving DecidableEq, Repr

/-- The canonical tuple produced by the key-material preparer. -/
structure PreparedKey where
  format : Option KeyFormat
  type : Option KeyEncoding
  data : KeyData
  cipher : JSVal
  passphrase : Option (List Nat)
deriving DecidableEq, Repr

/-- `{ data: handle }` (the bypass shape). -/
def PreparedKey.ofHandle (h : KeyObjectHandle) : PreparedKey :=
  { format := none, type := none, data := .handle h, cipher := JSVal.undef,
    passphrase := none }

/-- `prepareAsymmetricKey(key, ctx)`.  The first two arms mirror the
`isKeyObject(key)` / `isCryptoKey(key)` branch tests, which on values of a
genuine origin select exactly the `keyObject` / `cryptoKey` constructors.
Destructuring `null` throws an engine `TypeError` (its `typeof` is
`'object'` but it cannot be destructured). -/
def prepareAsymmetricKey (key : JSVal) (ctx : Nat) :
    Except CryptoErr PreparedKey :=
  match key with
  | .keyObject ko =>
    (getKeyObjectHandle ko ctx).map PreparedKey.ofHandle
  | .cryptoKey ck =>
    (getKeyObjectHandle ck.keyObject ctx).map PreparedKey.ofHandle
  | _ =>
    if isStringOrBuffer key then
      match getArrayBufferOrView key "key" JSVal.undef with
      | .error e => .error e
      | .ok b =>
        .ok { format := some .pem, type := none, data := .bytes b,
              cipher := JSVal.undef, passphrase := none }
    else if key = .nullv then
      .error (.nativeTypeError "Cannot destructure property")
    else if typeOf key = "object" then
      let data := jsGet key "key"
      let encoding := jsGet key "encoding"
      match data with
      | .keyObject ko =>
        (getKeyObjectHandle ko ctx).map PreparedKey.ofHandle
      | .cryptoKey ck =>
        (getKeyObjectHandle ck.keyObject ctx).map PreparedKey.ofHandle
      | _ =>
        if ¬isStringOrBuffer data then
          .error (.invalidArgType "key.key"
            (getKeyTypes (ctx ≠ kCreatePrivate) false))
        else
          match getArrayBufferOrView data "key" encoding with
          | .error e => .error e
          | .ok b =>
            let isPublic := if ctx = kConsumePrivate ∨ ctx = kCreatePrivate
              then some false else none
            match parseKeyEncoding key none isPublic none with
            | .error e => .error e
            | .ok p =>
              .ok { format := some p.format, type := p.type,
                    data := .bytes b, cipher := p.cipher,
                    passphrase := p.passphrase }
    else
      .error (.invalidArgType "key" (getKeyTypes (ctx ≠ kCreatePrivate) false))

/-- `preparePrivateKey(key)`. -/
def preparePrivateKey (key : JSVal) : Except CryptoErr PreparedKey :=
  prepareAsymmetricKey key kConsumePrivate

/-- `preparePublicOrPrivateKey(key)`. -/
def preparePublicOrPrivateKey (key : JSVal) : Except CryptoErr PreparedKey :=
  prepareAsymmetricKey key kConsumePublic

/-- `prepareSecretKey(key, encoding, bufferOnly)`. -/
def prepareSecretKey (key : JSVal) (encoding : JSVal) (bufferOnly : Bool) :
    Except CryptoErr KeyData :=
  match bufferOnly, key with
  | false, .keyObject ko =>
    if ko.type ≠ "secret" then
      .error (.invalidKeyObjectType ko.type "secret")
    else
      .ok (.handle ko.handle)
  | false, .cryptoKey ck =>
    if ck.keyObject.type ≠ "secret" then
      .error (.invalidKeyObjectType ck.keyObject.type "secret")
    else
      .ok (.handle ck.keyObject.handle)
  | _, _ =>
    if ¬isStringOrBuffer key then
      .error (.invalidArgType "key" (getKeyTypes (!bufferOnly) bufferOnly))
    else
      (getArrayBufferOrView key "key" encoding).map KeyData.bytes

/-- `createSecretKey(key, encoding)`.  With `bufferOnly = true` the
preparer never returns a handle, so the handle arm is unreachable. -/
def createSecretKey (key : JSVal) (encoding : JSVal) :
    Except CryptoErr KeyObject :=
  match prepareSecretKey key encoding true with
  | .error e => .error e
  | .ok (.handle _) => .error (.operationFailed "unreachable")
  | .ok (.bytes b) =>
    if b.length = 0 then
      .error (.outOfRange "key.byteLength" "> 0")
    else
      .ok (SecretKeyObject.mk (KeyObjectHandle.init .secret b))

/-- The public `CryptoKey` constructor: `constructor() { throw new
ERR_OPERATION_FAILED('Illegal constructor'); }`.  Extra call arguments are
ignored by JS, so it throws for every argument list. -/
def CryptoKey.construct (_args : List JSVal) : Except CryptoErr CryptoKey :=
  .error (.operationFailed "Illegal constructor")

/-- `CryptoKey.prototype.type` getter: delegates to the wrapped
`KeyObject`'s category. -/
def CryptoKey.type (k : CryptoKey) : String :=
  k.keyObject.type

/-- `CryptoKey.prototype.usages` getter: `ArrayFrom(this[kKeyUsages])`, an
order-preserving fresh copy; a copy of a pure list is the list itself. -/
def CryptoKey.usages (k : CryptoKey) : List String :=
  k.keyUsages

/-- The serialized snapshot produced by `CryptoKey.prototype[kClone]`. -/
structure CloneData where
  keyObject : KeyObject
  algorithm : String
  usages : List String
  extractable : Bool
deriving DecidableEq, Repr

/-- `CryptoKey.prototype[kClone]()`: captures the four fields (reading
`algorithm`, `extractable` and `usages` through their getters) and names
the deserializer. -/
def CryptoKey.kClone (k : CryptoKey) : CloneData × String :=
  ({ keyObject := k.keyObject, algorithm := k.algorithm,
     usages := k.usages, extractable := k.extractable },
   "internal/crypto/keys:InternalCryptoKey")

/-- `CryptoKey.prototype[kDeserialize]({keyObject, algorithm, usages,
extractable})`: populates the four slots of the receiving instance. -/
def CryptoKey.kDeserialize (d : CloneData) : CryptoKey :=
  { keyObject := d.keyObject, algorithm := d.algorithm,
    keyUsages := d.usages, extractable := d.extractable }

/-- `new InternalCryptoKey(keyObject, algorithm, keyUsages, extractable)`:
the internal construction path, populating all four slots. -/
def InternalCryptoKey.construct (keyObject : KeyObject) (algorithm : String)
    (keyUsages : List String) (extractable : Bool) : CryptoKey :=
  { keyObject := keyObject, algorithm := algorithm,
    keyUsages := keyUsages, extractable := extractable }

/-! ### The AbortController / AbortSignal module -/

/-- A raw engine error thrown by the abort module. -/
inductive JsError where
  | typeError (msg : String)
deriving DecidableEq, Repr

/-- A dispatched event: its `type` string and the `kTrustEvent` flag. -/
structure Event where
  type : String
  trusted : Bool
deriving DecidableEq, Repr

/-- The `AbortSignal` state: the `kAborted` slot (set to `false` by
`createAbortSignal`). -/
structure AbortSignal where
  aborted : Bool
deriving DecidableEq, Repr

/-- The `AbortSignal` constructor: `throw new TypeError('Illegal
constructor')`, unconditionally. -/
def AbortSignal.construct : Except JsError AbortSignal :=
  .error (.typeError "Illegal constructor")

/-- `createAbortSignal()`: the internal creation route; the fresh signal
has `kAborted = false`. -/
def createAbortSignal : AbortSignal :=
  { aborted := false }

/-- `abortSignal(signal)`: returns the updated signal state together with
the list of events dispatched by the call.  An already-aborted signal is
returned unchanged with no event; otherwise the flag is set and one
trusted `'abort'` event is dispatched. -/
def abortSignal (signal : AbortSignal) : AbortSignal × List Event :=
  if signal.aborted then
    (signal, [])
  else
    ({ aborted := true }, [{ type := "abort", trusted := true }])

/-- The `AbortController` state: the `kSignal` slot. -/
structure AbortController where
  signal : AbortSignal
deriving DecidableEq, Repr

/-- `new AbortController()`: `this[kSignal] = createAbortSignal()`. -/
def AbortController.new : AbortController :=
  { signal := createAbortSignal }

/-- `AbortController.prototype.abort()`: `abortSignal(this[kSignal])`;
returns the updated controller and the dispatched events. -/
def AbortController.abort (c : AbortController) :
    AbortController × List Event :=
  let r := abortSignal c.signal
  ({ signal := r.1 }, r.2)

/-- An encoding-options object `{format, type, cipher, passphrase}` (the
`encoding`/`key` properties and the `kKeyObject` slot absent). -/
def mkEnc (format type cipher passphrase : JSVal) : JSVal :=
  .obj format type cipher passphrase JSVal.undef JSVal.undef JSVal.undef

/-- A forged plain object of foreign origin whose `kKeyObject` symbol slot
is set (to the number `1`); it was not produced by `InternalCryptoKey`. -/
def forgedCryptoKeyLike : JSVal :=
  .obj JSVal.undef JSVal.undef JSVal.undef JSVal.undef JSVal.undef JSVal.undef (.num 1)

/-! ## Theorems -/

/-- Claim C2: for every Crypto Key, serializing it via the clone protocol
(`kClone`) and reconstructing it on the receiving side (`kDeserialize`)
yields a Crypto Key whose `type`, `extractable`, `algorithm`, and `usages`
(in the same order) equal those of the original. -/
theorem cryptoKey_clone_roundtrip (k : CryptoKey) :
    (CryptoKey.kDeserialize (CryptoKey.kClone k).1).type = k.type ∧
    (CryptoKey.kDeserialize (CryptoKey.kClone k).1).extractable =
      k.extractable ∧
    (CryptoKey.kDeserialize (CryptoKey.kClone k).1).algorithm =
      k.algorithm ∧
    (CryptoKey.kDeserialize (CryptoKey.kClone k).1).usages = k.usages :=
  ⟨rfl, rfl, rfl, rfl⟩

/-- Claim C3: invoking the public `CryptoKey` constructor always fails
with the illegal-construction error, for every argument list, while the
internal `InternalCryptoKey` construction path yields an instance with all
four slots populated. -/
theorem cryptoKey_constructor_always_fails :
    (∀ args : List JSVal, CryptoKey.construct args =
      .error (.operationFailed "Illegal constructor")) ∧
    (∀ (ko : KeyObject) (alg : String) (us : List String) (ex : Bool),
      (InternalCryptoKey.construct ko alg us ex).keyObject = ko ∧
      (InternalCryptoKey.construct ko alg us ex).algorithm = alg ∧
      (InternalCryptoKey.construct ko alg us ex).keyUsages = us ∧
      (InternalCryptoKey.construct ko alg us ex).extractable = ex) :=
  ⟨fun _ => rfl, fun _ _ _ _ => ⟨rfl, rfl, rfl, rfl⟩⟩

/-- Claim C7: preparing key material in the create-private-key context
from an existing Key Object or Crypto Key — passed directly or as the
`key` field of an options object — is always rejected with the
invalid-argument-type error for `key`. -/
theorem createPrivate_rejects_existing_keys
    (ko : KeyObject) (ck : CryptoKey) (f t c p e : JSVal) :
    prepareAsymmetricKey (.keyObject ko) kCreatePrivate =
      .error (.invalidArgType "key"
        ["string", "ArrayBuffer", "Buffer", "TypedArray", "DataView"]) ∧
    prepareAsymmetricKey (.cryptoKey ck) kCreatePrivate =
      .error (.invalidArgType "key"
        ["string", "ArrayBuffer", "Buffer", "TypedArray", "DataView"]) ∧
    prepareAsymmetricKey (.obj f t c p e (.keyObject ko) JSVal.undef)
        kCreatePrivate =
      .error (.invalidArgType "key"
        ["string", "ArrayBuffer", "Buffer", "TypedArray", "DataView"]) ∧
    prepareAsymmetricKey (.obj f t c p e (.cryptoKey ck) JSVal.undef)
        kCreatePrivate =
      .error (.invalidArgType "key"
        ["string", "ArrayBuffer", "Buffer", "TypedArray", "DataView"]) :=
  ⟨rfl, rfl, rfl, rfl⟩

/-- Claim C9 (amended reading of the first call generalized to any
not-yet-aborted signal): the first `abort()` sets the signal's flag and
dispatches exactly one trusted `'abort'` event; an `abort()` on an
already-aborted controller leaves it unchanged and dispatches nothing; in
particular every call after the first is a no-op. -/
theorem abort_idempotent :
    (∀ c : AbortController, c.signal.aborted = false →
      c.abort = ({ signal := { aborted := true } },
                 [{ type := "abort", trusted := true }])) ∧
    (∀ c : AbortController, c.signal.aborted = true →
      c.abort = (c, [])) ∧
    (∀ c : AbortController, (c.abort.1).abort = (c.abort.1, [])) := by
  refine ⟨?_, ?_, ?_⟩
  · intro c h
    simp [AbortController.abort, abortSignal, h]
  · intro c h
    simp [AbortController.abort, abortSignal, h]
  · intro c
    cases hc : c.signal.aborted <;>
      simp [AbortController.abort, abortSignal, hc]

/-- Witness for `abort_idempotent` at a freshly constructed controller and
at an already-aborted controller. -/
theorem abort_idempotent_witness :
    AbortController.new.abort =
      ({ signal := { aborted := true } },
       [{ type := "abort", trusted := true }]) ∧
    (AbortController.mk { aborted := true }).abort =
      (AbortController.mk { aborted := true }, []) :=
  ⟨abort_idempotent.1 AbortController.new rfl,
   abort_idempotent.2.1 (AbortController.mk { aborted := true }) rfl⟩

/-- Claim C10: direct construction of an `AbortSignal` always throws a
`TypeError`; the internal creation route yields a signal with
`aborted = false`, and so does the signal of a freshly constructed
`AbortController`. -/
theorem abortSignal_illegal_construction :
    AbortSignal.construct = .error (.typeError "Illegal constructor") ∧
    createAbortSignal.aborted = false ∧
    AbortController.new.signal.aborted = false :=
  ⟨rfl, rfl, rfl⟩

/-- Claim C1, counterexample: the `KeyObject` constructor accepts a
category string that does not match the handle's actual key type — here
category `"public"` with a secret-type handle — returning an object
instead of a construction-time error. -/
theorem keyObject_mismatch_accepted :
    KeyObject.construct "public"
        (.handleV { keyType := .secret, data := [0] }) =
      .ok { type := "public",
            handle := { keyType := .secret, data := [0] } } ∧
    NativeKeyType.name .secret ≠ "public" :=
  ⟨rfl, by decide⟩

/-- Claim C1, amended: the category is fixed at construction (the
constructed object's `type` is exactly the supplied category string, and
the structure is immutable); the constructor validates only that the
category is one of the three category strings and that the handle is a
`KeyObjectHandle` — it performs no comparison against the handle's actual
key type. -/
theorem keyObject_construct_category_fixed
    (t : String) (h : KeyObjectHandle)
    (ht : t = "secret" ∨ t = "public" ∨ t = "private") :
    KeyObject.construct t (.handleV h) =
      .ok { type := t, handle := h } ∧
    ({ type := t, handle := h } : KeyObject).type = t := by
  rcases ht with rfl | rfl | rfl <;> exact ⟨rfl, rfl⟩

/-- Witness for `keyObject_construct_category_fixed`: a `"public"`
category paired with a secret-type handle is accepted. -/
theorem keyObject_construct_category_fixed_witness :
    KeyObject.construct "public"
        (.handleV { keyType := .secret, data := [1] }) =
      .ok { type := "public",
            handle := { keyType := .secret, data := [1] } } ∧
    ({ type := "public",
       handle := { keyType := .secret, data := [1] } } : KeyObject).type =
      "public" :=
  keyObject_construct_category_fixed "public"
    { keyType := .secret, data := [1] } (Or.inr (Or.inl rfl))

/-- Claim C4, counterexample: `isCryptoKey` is a structural check; a
forged plain object of foreign origin whose `kKeyObject` slot is set is
recognized as a Crypto Key even though it was not produced by the internal
`InternalCryptoKey` construction path (and is not a Key Object either). -/
theorem isCryptoKey_accepts_forged_object :
    isCryptoKey forgedCryptoKeyLike = true ∧
    isInternalCryptoKey forgedCryptoKeyLike = false ∧
    isKeyObject forgedCryptoKeyLike = false :=
  ⟨rfl, rfl, rfl⟩

/-- Claim C4, amended: `isKeyObject` is nominal — it holds exactly for
instances of the `KeyObject` class; `isCryptoKey` is structural — it holds
exactly for genuine Crypto Keys and for plain objects whose `kKeyObject`
property is defined, so every internally constructed Crypto Key is
recognized but a forged object carrying that property is recognized as
well. -/
theorem recognition_predicates_characterized :
    (∀ v : JSVal, isKeyObject v = true ↔ ∃ ko, v = .keyObject ko) ∧
    (∀ v : JSVal, isCryptoKey v = true ↔
      ((∃ ck, v = .cryptoKey ck) ∨
       (∃ f t c p e k kko, v = .obj f t c p e k kko ∧ kko ≠ JSVal.undef))) := by
  constructor
  · intro v
    cases v <;> simp [isKeyObject]
  · intro v
    cases v <;> simp [isCryptoKey, jsNotNull, jsGetKKeyObject]
    constructor
    · intro hk
      exact ⟨_, _, _, _, _, _, _, ⟨rfl, rfl, rfl, rfl, rfl, rfl, rfl⟩, hk⟩
    · rintro ⟨f, t, c, p, e, k, kko, ⟨h1, h2, h3, h4, h5, h6, rfl⟩, hk⟩
      exact hk

/-- Claim C5, counterexample: in a private-key DER export with type SEC1,
a non-null cipher that is not a string (here the number `42`) fails with
the invalid-argument-value error for `options.cipher`, not with an
incompatible-key-options error, so "any non-null cipher" is too strong. -/
theorem der_cipher_nonstring_error_class :
    parsePrivateKeyEncoding
        (mkEnc (.str "der") (.str "sec1") (.num 42) JSVal.undef)
        (some "ec") none =
      .error (.invalidArgValue "options.cipher" (.num 42)) ∧
    ∀ s m : String,
      parsePrivateKeyEncoding
          (mkEnc (.str "der") (.str "sec1") (.num 42) JSVal.undef)
          (some "ec") none ≠
        .error (.incompatibleKeyOptions s m) := by
  refine ⟨rfl, ?_⟩
  intro s m hc
  have h0 : parsePrivateKeyEncoding
      (mkEnc (.str "der") (.str "sec1") (.num 42) JSVal.undef)
      (some "ec") none =
      .error (.invalidArgValue "options.cipher" (.num 42)) := rfl
  rw [h0] at hc
  simp at hc

/-- Claim C5, amended: for every private-key export negotiation with
format DER and type PKCS1 or SEC1, any non-null *string* cipher — whether
or not it is a valid cipher name — fails with an incompatible-key-options
error (for the matching key family the DER form cannot carry encryption;
for a mismatched family the type tag itself is incompatible); a non-null
non-string cipher instead fails with an invalid-argument-value error. -/
theorem der_restricted_cipher_incompatible
    (kt cipher : String) (pass : JSVal) :
    (∃ s m, parsePrivateKeyEncoding
        (mkEnc (.str "der") (.str "pkcs1") (.str cipher) pass)
        (some kt) none = .error (.incompatibleKeyOptions s m)) ∧
    (∃ s m, parsePrivateKeyEncoding
        (mkEnc (.str "der") (.str "sec1") (.str cipher) pass)
        (some kt) none = .error (.incompatibleKeyOptions s m)) := by
  constructor
  · rcases eq_or_ne kt "rsa" with rfl | hkt
    · exact ⟨"pkcs1", "does not support encryption", rfl⟩
    · refine ⟨"pkcs1", "can only be used for RSA keys", ?_⟩
      simp [parsePrivateKeyEncoding, parseKeyEncoding,
            parseKeyFormatAndType, parseKeyFormat, parseKeyType, mkEnc,
            jsGet, option, typeOf, hkt]
  · rcases eq_or_ne kt "ec" with rfl | hkt
    · exact ⟨"sec1", "does not support encryption", rfl⟩
    · refine ⟨"sec1", "can only be used for EC keys", ?_⟩
      simp [parsePrivateKeyEncoding, parseKeyEncoding,
            parseKeyFormatAndType, parseKeyFormat, parseKeyType, mkEnc,
            jsGet, option, typeOf, hkt]

/-- Claim C6: the type tag `'spki'` resolves successfully only when the
publicness constraint is not `false`: in every non-public context
(`isPublic = false`) supplying `'spki'` is an invalid-argument-value
error, and conversely a successful resolution implies the context was not
non-public. -/
theorem parseKeyType_spki_public_only :
    (∀ (required : Bool) (keyType : Option String) (optionName : String),
      parseKeyType (.str "spki") required keyType (some false) optionName =
        .error (.invalidArgValue optionName (.str "spki"))) ∧
    (∀ (required : Bool) (keyType : Option String) (isPublic : Option Bool)
        (optionName : String) (r : Option KeyEncoding),
      parseKeyType (.str "spki") required keyType isPublic optionName =
        .ok r → isPublic ≠ some false) := by
  have h1 : ∀ (required : Bool) (keyType : Option String)
      (optionName : String),
      parseKeyType (.str "spki") required keyType (some false) optionName =
        .error (.invalidArgValue optionName (.str "spki")) := by
    intro required keyType optionName
    cases required <;> rfl
  refine ⟨h1, ?_⟩
  intro required keyType isPublic optionName r heq hfalse
  subst hfalse
  rw [h1 required keyType optionName] at heq
  exact Except.noConfusion heq

/-- Witness for `parseKeyType_spki_public_only`: `'spki'` fails in the
non-public context and succeeds in a public context. -/
theorem parseKeyType_spki_public_only_witness :
    parseKeyType (.str "spki") true none (some false) "options.type" =
      .error (.invalidArgValue "options.type" (.str "spki")) ∧
    (some true : Option Bool) ≠ some false :=
  ⟨parseKeyType_spki_public_only.1 true none "options.type",
   parseKeyType_spki_public_only.2 true none (some true) "options.type"
     (some .spki) rfl⟩

/-- Claim C8: for every non-empty byte sequence `b`, `createSecretKey(b)`
succeeds with a secret-category Key Object wrapping a handle initialized
with `b`, and the no-argument `export()` of that Key Object returns bytes
equal to `b`. -/
theorem createSecretKey_export_roundtrip (b : List Nat) (h : b ≠ []) :
    createSecretKey (.buf b) JSVal.undef =
      .ok { type := "secret",
            handle := { keyType := .secret, data := b } } ∧
    SecretKeyObject.exportKey
      { type := "secret", handle := { keyType := .secret, data := b } } =
      b := by
  have hlen : ¬ b.length = 0 := by simpa using h
  refine ⟨?_, rfl⟩
  show (if b.length = 0 then
          (.error (.outOfRange "key.byteLength" "> 0") :
            Except CryptoErr KeyObject)
        else .ok (SecretKeyObject.mk (KeyObjectHandle.init .secret b))) =
      .ok { type := "secret",
            handle := { keyType := .secret, data := b } }
  rw [if_neg hlen]
  rfl

/-- Witness for `createSecretKey_export_roundtrip` at the byte sequence
`[1, 2, 3]`. -/
theorem createSecretKey_export_roundtrip_witness :
    createSecretKey (.buf [1, 2, 3]) JSVal.undef =
      .ok { type := "secret",
            handle := { keyType := .secret, data := [1, 2, 3] } } ∧
    SecretKeyObject.exportKey
      { type := "secret",
        handle := { keyType := .secret, data := [1, 2, 3] } } =
      [1, 2, 3] :=
  createSecretKey_export_roundtrip [1, 2, 3] (by decide)

end Node
